import Mathlib

set_option maxRecDepth 100000

/-!
Verification of the static-file HTTP server in `serve.py`
(Car-Route-Visualizer repository).

The request-handling pipeline of `CustomHandler` is embedded as pure
Lean functions: `end_headers` becomes a function from the handler's
current path to the list of headers it appends, and `do_GET` becomes a
function from the gzip codec, the filesystem state, the raw request
path and the `Accept-Encoding` header value to the response (status,
ordered header list, body) together with the server-side log lines.

String tests (`startswith`, `endswith`, `in`, `lower`, `split`) are
carried out on the lists of character codes of the strings, with
structural recursion, mirroring the Python operations on ASCII paths.

The filesystem is modelled with two independent observations,
`pathExists` (Python `os.path.exists`) and `read` (Python
`open(...).read()` with its possible exceptions), so that the
time-of-check/time-of-use behaviour of the code is representable.
-/

/-- Body bytes are modelled as lists of naturals. -/
abbrev Bytes := List Nat

/-- Outcome of Python `open(file_path, 'rb'); f.read()`:
success with the content, `FileNotFoundError`, or any other exception
(carrying its message). -/
inductive ReadResult where
  | ok (content : Bytes)
  | notFound
  | ioError (msg : String)
deriving DecidableEq, Repr

/-- The filesystem as the handler observes it: `pathExists` models
`os.path.exists` at resolution time and `read` models the later
`open`/`read`; keeping them independent lets the model express a file
disappearing between the check and the read. -/
structure FileSystem where
  pathExists : String → Bool
  read : String → ReadResult

/-- A consistent filesystem built from an association list of
path ↦ content, with no race: a path exists iff reading it succeeds. -/
def FileSystem.ofList (files : List (String × Bytes)) : FileSystem where
  pathExists p := (files.lookup p).isSome
  read p :=
    match files.lookup p with
    | some c => ReadResult.ok c
    | none => ReadResult.notFound

/-- The character codes of a string. -/
def strCodes (s : String) : List Nat :=
  s.toList.map Char.toNat

/-- ASCII lower-casing on character codes (Python `str.lower` on the
ASCII paths the server handles). -/
def lowerCodes (l : List Nat) : List Nat :=
  l.map (fun n => if 65 ≤ n ∧ n ≤ 90 then n + 32 else n)

/-- `pre` is a prefix of `s` (Python `str.startswith`). -/
def startsWithStr (s pre : String) : Bool :=
  (strCodes pre).isPrefixOf (strCodes s)

/-- `suf` (given as codes) is a suffix of the code list `path`
(Python `str.endswith`). -/
def codesSuffix (suf path : List Nat) : Bool :=
  suf.isSuffixOf path

/-- `sub` occurs as a contiguous substring of `s` (Python `in`). -/
def strContains (s sub : String) : Bool :=
  (List.range ((strCodes s).length + 1)).any
    (fun i => (strCodes sub).isPrefixOf ((strCodes s).drop i))

/-- Characters of `s` strictly before the first occurrence of `c`. -/
def stripAfter (c : Char) (s : String) : String :=
  (s.toList.takeWhile (fun x => x ≠ c)).asString

/-- Modelled from Python's `http.server` `translate_path` (library
code, not part of this repository): the query (`?...`) and fragment
(`#...`) components are stripped from the request path.  The
percent-decoding and the join with the root directory are absorbed
into the keying of the `FileSystem`, which is indexed by the stripped
request path. -/
def translate_path (p : String) : String :=
  stripAfter '#' (stripAfter '?' p)

/-- Splitting a code list at every occurrence of `sep`
(Python `str.split(sep)`: the empty list yields one empty group). -/
def splitOnCode (sep : Nat) : List Nat → List (List Nat)
  | [] => [[]]
  | c :: rest =>
    match splitOnCode sep rest with
    | [] => [[]]
    | h :: t => if c = sep then [] :: h :: t else (c :: h) :: t

/-- Extension (with leading dot, lower-cased, as character codes) of
the final path component, following `posixpath.splitext`: empty when
the component has no dot or only leading dots.  Code 47 is `/` and
code 46 is `.`. -/
def fileExtension (p : String) : List Nat :=
  let base := (splitOnCode 47 (strCodes p)).getLastD []
  let pieces := splitOnCode 46 base
  if pieces.length ≤ 1 then []
  else if pieces.dropLast.all (fun s => s.isEmpty) then []
  else lowerCodes (46 :: pieces.getLastD [])

/-- Extension ↦ MIME type table: the five `mimetypes.add_type`
overrides registered at module load in `serve.py`, together with the
standard-library defaults for the extensions the server's cache rules
name. -/
def mimeTable : List (String × String) :=
  [ (".js", "application/javascript")
  , (".css", "text/css")
  , (".json", "application/json")
  , (".webmanifest", "application/manifest+json")
  , (".svg", "image/svg+xml")
  , (".html", "text/html")
  , (".htm", "text/html")
  , (".txt", "text/plain")
  , (".xml", "text/xml")
  , (".png", "image/png")
  , (".jpg", "image/jpeg")
  , (".jpeg", "image/jpeg")
  , (".gif", "image/gif")
  , (".ico", "image/vnd.microsoft.icon")
  , (".woff", "font/woff")
  , (".woff2", "font/woff2")
  , (".pdf", "application/pdf") ]

/-- Modelled from `SimpleHTTPRequestHandler.guess_type` (library code)
with the `mimetypes` configuration performed by `serve.py`: look the
lower-cased extension up in the table, defaulting to
`application/octet-stream`. -/
def guess_type (path : String) : String :=
  match mimeTable.find? (fun kv => strCodes kv.1 == fileExtension path) with
  | some kv => kv.2
  | none => "application/octet-stream"

/-- `self.compressible_types` from `CustomHandler.__init__`. -/
def compressible_types : List String :=
  [ "text/html", "text/css", "application/javascript", "application/json"
  , "text/plain", "application/xml", "application/manifest+json"
  , "image/svg+xml" ]

/-- The extension tuple of the first cache-control branch in
`CustomHandler.end_headers`. -/
def staticExtensions : List String :=
  [".css", ".js", ".png", ".jpg", ".jpeg", ".gif", ".ico", ".svg", ".woff", ".woff2"]

/-- The cache-control portion of `CustomHandler.end_headers`: the
request path is lower-cased and the three suffix tests are applied in
source order (static extensions, then `.html`, then `sw.js`). -/
def cacheHeaders (selfPath : String) : List (String × String) :=
  let path := lowerCodes (strCodes selfPath)
  if staticExtensions.any (fun e => codesSuffix (strCodes e) path) then
    [("Cache-Control", "public, max-age=31536000")]
  else if codesSuffix (strCodes ".html") path then
    [("Cache-Control", "public, max-age=3600")]
  else if codesSuffix (strCodes "sw.js") path then
    [ ("Cache-Control", "no-cache, no-store, must-revalidate")
    , ("Pragma", "no-cache")
    , ("Expires", "0") ]
  else []

/-- The seven unconditional security/CORS headers sent at the top of
`CustomHandler.end_headers`. -/
def securityHeaders : List (String × String) :=
  [ ("X-Content-Type-Options", "nosniff")
  , ("X-Frame-Options", "DENY")
  , ("X-XSS-Protection", "1; mode=block")
  , ("Referrer-Policy", "strict-origin-when-cross-origin")
  , ("Access-Control-Allow-Origin", "*")
  , ("Access-Control-Allow-Methods", "GET, POST, OPTIONS")
  , ("Access-Control-Allow-Headers", "Content-Type") ]

/-- `CustomHandler.end_headers`: the headers it appends to every
response (security/CORS headers, then the cache-control block computed
from the handler's current `self.path`). -/
def end_headers (selfPath : String) : List (String × String) :=
  securityHeaders ++ cacheHeaders selfPath

/-- The special-path rewriting at the top of `do_GET`:
`/sw.js` is passed through (the self-assignment in the source is a
no-op), and `/` or the empty path becomes `/index.html`. -/
def rewritePath (rawPath : String) : String :=
  if rawPath = "/sw.js" then "/sw.js"
  else if rawPath = "/" ∨ rawPath = "" then "/index.html"
  else rawPath

/-- The value of `self.path` after the SPA-fallback step of `do_GET`:
if the resolved file does not exist and the (rewritten) path does not
start with `/privacy`, the path becomes `/index.html`. -/
def effectivePath (fs : FileSystem) (rawPath : String) : String :=
  let p1 := rewritePath rawPath
  if fs.pathExists (translate_path p1) = false ∧ startsWithStr p1 "/privacy" = false then
    "/index.html"
  else p1

/-- The value of `file_path` that `do_GET` finally opens. -/
def resolvedFile (fs : FileSystem) (rawPath : String) : String :=
  translate_path (effectivePath fs rawPath)

/-- A response: status code, headers in wire order, body bytes. -/
structure Response where
  status : Nat
  headers : List (String × String)
  body : Bytes
deriving DecidableEq, Repr

/-- What one `do_GET` call produces: the response written to the
client and the lines printed to the server's console. -/
structure HandlerResult where
  response : Response
  log : List String
deriving DecidableEq, Repr

/-- Body of `send_error(404, "File not found")` (the generic
library-generated error page, carrying only the fixed message). -/
def body404 : Bytes := strCodes "File not found"

/-- Body of `send_error(500, "Internal server error")`: a fixed
generic page, independent of the caught exception. -/
def body500 : Bytes := strCodes "Internal server error"

/-- The compression decision of `do_GET`:
`can_gzip and content_type in self.compressible_types and len(content) > 1024`,
where `content_type` is computed from the finally-resolved file path. -/
def compressionApplies (fs : FileSystem) (rawPath acceptEncoding : String)
    (content : Bytes) : Prop :=
  strContains acceptEncoding "gzip" = true ∧
  guess_type (resolvedFile fs rawPath) ∈ compressible_types ∧
  content.length > 1024

instance (fs : FileSystem) (p ae : String) (c : Bytes) :
    Decidable (compressionApplies fs p ae c) := by
  unfold compressionApplies
  exact inferInstance

/-- `CustomHandler.do_GET`, parameterised by the gzip compressor `gz`
(the `gzip` library is external code; theorems about compressed bodies
quantify over it).  Mirrors the source: special-path rewrite, SPA
fallback, `Accept-Encoding` check, file read, compression decision,
header assembly via `end_headers` on the final `self.path`, and the
`FileNotFoundError` → 404 / other exception → 500-with-log handlers. -/
def do_GET (gz : Bytes → Bytes) (fs : FileSystem) (rawPath acceptEncoding : String) :
    HandlerResult :=
  let path := effectivePath fs rawPath
  let file_path := resolvedFile fs rawPath
  match fs.read file_path with
  | ReadResult.ok content =>
    let content_type := guess_type file_path
    if compressionApplies fs rawPath acceptEncoding content then
      { response :=
          { status := 200
          , headers :=
              [ ("Content-Type", content_type)
              , ("Content-Length", toString (gz content).length)
              , ("Content-Encoding", "gzip") ] ++ end_headers path
          , body := gz content }
      , log := [] }
    else
      { response :=
          { status := 200
          , headers :=
              [ ("Content-Type", content_type)
              , ("Content-Length", toString content.length) ] ++ end_headers path
          , body := content }
      , log := [] }
  | ReadResult.notFound =>
    { response := { status := 404, headers := end_headers path, body := body404 }
    , log := [] }
  | ReadResult.ioError e =>
    { response := { status := 500, headers := end_headers path, body := body500 }
    , log := ["Error serving " ++ path ++ ": " ++ e] }

/-- Case lemma: successful read with the compression condition met. -/
theorem do_GET_ok_compressed (gz : Bytes → Bytes) (fs : FileSystem) (p ae : String)
    (c : Bytes) (hread : fs.read (resolvedFile fs p) = ReadResult.ok c)
    (hc : compressionApplies fs p ae c) :
    do_GET gz fs p ae =
      { response :=
          { status := 200
          , headers :=
              [ ("Content-Type", guess_type (resolvedFile fs p))
              , ("Content-Length", toString (gz c).length)
              , ("Content-Encoding", "gzip") ] ++ end_headers (effectivePath fs p)
          , body := gz c }
      , log := [] } := by
  simp only [do_GET, hread]
  rw [if_pos hc]

/-- Case lemma: successful read with the compression condition not met. -/
theorem do_GET_ok_plain (gz : Bytes → Bytes) (fs : FileSystem) (p ae : String)
    (c : Bytes) (hread : fs.read (resolvedFile fs p) = ReadResult.ok c)
    (hc : ¬ compressionApplies fs p ae c) :
    do_GET gz fs p ae =
      { response :=
          { status := 200
          , headers :=
              [ ("Content-Type", guess_type (resolvedFile fs p))
              , ("Content-Length", toString c.length) ] ++ end_headers (effectivePath fs p)
          , body := c }
      , log := [] } := by
  simp only [do_GET, hread]
  rw [if_neg hc]

/-- Case lemma: the read raises `FileNotFoundError`. -/
theorem do_GET_notFound (gz : Bytes → Bytes) (fs : FileSystem) (p ae : String)
    (hread : fs.read (resolvedFile fs p) = ReadResult.notFound) :
    do_GET gz fs p ae =
      { response :=
          { status := 404, headers := end_headers (effectivePath fs p), body := body404 }
      , log := [] } := by
  simp only [do_GET, hread]

/-- Case lemma: the read raises any other exception. -/
theorem do_GET_ioError (gz : Bytes → Bytes) (fs : FileSystem) (p ae : String)
    (e : String) (hread : fs.read (resolvedFile fs p) = ReadResult.ioError e) :
    do_GET gz fs p ae =
      { response :=
          { status := 500, headers := end_headers (effectivePath fs p), body := body500 }
      , log := ["Error serving " ++ effectivePath fs p ++ ": " ++ e] } := by
  simp only [do_GET, hread]

/-- The cache-control block never emits a `Content-Encoding` header,
whatever the path. -/
theorem cacheHeaders_no_contentEncoding (p : String) :
    (cacheHeaders p).lookup "Content-Encoding" = none := by
  simp only [cacheHeaders]
  split
  · rfl
  · split
    · rfl
    · split
      · rfl
      · rfl

example : translate_path "/app.js?v=2" = "/app.js" := by decide

example : guess_type "/app.js" = "application/javascript" := by decide

example : guess_type "/index.html" = "text/html" := by decide

example : cacheHeaders "/sw.js" = [("Cache-Control", "public, max-age=31536000")] := by
  decide

example : cacheHeaders "/app.js?v=2" = [] := by decide

example : cacheHeaders "/index.html" = [("Cache-Control", "public, max-age=3600")] := by
  decide

example : strContains "gzip, deflate" "gzip" = true := by decide

example : strContains "" "gzip" = false := by decide

/-- Content of the application shell `index.html` in the demo filesystem. -/
def idxBytes : Bytes := strCodes "<html>app shell</html>"

/-- Content of `app.js` in the demo filesystem. -/
def appBytes : Bytes := strCodes "console.log(42);"

/-- Content of `sw.js` in the demo filesystem: 1030 bytes, so the
compression threshold is exceeded. -/
def swBytes : Bytes := List.replicate 1030 59

/-- A small consistent filesystem with the application shell, a static
asset and the service worker. -/
def demoFS : FileSystem :=
  FileSystem.ofList [("/index.html", idxBytes), ("/sw.js", swBytes), ("/app.js", appBytes)]

/-- C1: the claim states that a GET for `/sw.js` always carries
`Cache-Control: no-cache, no-store, must-revalidate`, `Pragma: no-cache`
and `Expires: 0` because the service-worker rule would be checked
first.  The code checks the static-extension tuple first, `/sw.js`
ends in `.js`, so the response actually carries
`Cache-Control: public, max-age=31536000` and neither `Pragma` nor
`Expires`; the `sw.js` branch of `end_headers` is unreachable
(anything ending in `sw.js` ends in `.js`).  This theorem evaluates
the handler at the failing input. -/
theorem C1_sw_cache_bug :
    (do_GET id demoFS "/sw.js" "gzip").response.headers.lookup "Cache-Control"
        = some "public, max-age=31536000" ∧
    (do_GET id demoFS "/sw.js" "gzip").response.headers.lookup "Pragma" = none ∧
    (do_GET id demoFS "/sw.js" "gzip").response.headers.lookup "Expires" = none := by
  decide

/-- The `sw.js` branch of `end_headers` is dead code: every path whose
lower-casing ends in `sw.js` also ends in `.js`, so the static-extension
branch always fires first. -/
theorem cacheHeaders_swjs_branch_dead (p : String)
    (h : codesSuffix (strCodes "sw.js") (lowerCodes (strCodes p)) = true) :
    cacheHeaders p = [("Cache-Control", "public, max-age=31536000")] := by
  simp only [cacheHeaders]
  have hjs : codesSuffix (strCodes ".js") (lowerCodes (strCodes p)) = true := by
    simp only [codesSuffix, List.isSuffixOf_iff_suffix] at h ⊢
    exact List.IsSuffix.trans (by decide) h
  have hany : (staticExtensions.any fun e => codesSuffix (strCodes e) (lowerCodes (strCodes p))) = true := by
    simp only [staticExtensions, List.any_cons, List.any_nil, Bool.or_eq_true]
    exact Or.inr (Or.inl hjs)
  rw [if_pos hany]

/-- Helper for the dead-branch lemma: a witness instantiating its
hypothesis at `/sw.js`. -/
theorem cacheHeaders_swjs_branch_dead_witness :
    cacheHeaders "/sw.js" = [("Cache-Control", "public, max-age=31536000")] :=
  cacheHeaders_swjs_branch_dead "/sw.js" (by decide)

/-- C10: the cache-control suffix match runs on the raw request path
(query string included) while `translate_path` strips the query for
file resolution: `GET /app.js?v=2` serves the existing `app.js` with
status 200 but attaches no `Cache-Control` header at all. -/
theorem C10_query_string_defeats_cache_header :
    translate_path "/app.js?v=2" = "/app.js" ∧
    (do_GET id demoFS "/app.js?v=2" "").response.status = 200 ∧
    (do_GET id demoFS "/app.js?v=2" "").response.body = appBytes ∧
    (do_GET id demoFS "/app.js?v=2" "").response.headers.lookup "Cache-Control" = none := by
  decide

/-- C8: requesting `/` (or the empty path) and requesting
`/index.html` directly yield byte-identical bodies and identical
`Cache-Control` headers, for any filesystem, codec and
`Accept-Encoding` value: both are rewritten to `/index.html` before
resolution and before `end_headers` reads the path. -/
theorem C8_root_equals_index (gz : Bytes → Bytes) (fs : FileSystem) (ae : String) :
    ((do_GET gz fs "/" ae).response.body = (do_GET gz fs "/index.html" ae).response.body ∧
     (do_GET gz fs "/" ae).response.headers.lookup "Cache-Control"
       = (do_GET gz fs "/index.html" ae).response.headers.lookup "Cache-Control") ∧
    ((do_GET gz fs "" ae).response.body = (do_GET gz fs "/index.html" ae).response.body ∧
     (do_GET gz fs "" ae).response.headers.lookup "Cache-Control"
       = (do_GET gz fs "/index.html" ae).response.headers.lookup "Cache-Control") := by
  have h1 : do_GET gz fs "/" ae = do_GET gz fs "/index.html" ae := rfl
  have h2 : do_GET gz fs "" ae = do_GET gz fs "/index.html" ae := rfl
  exact ⟨⟨by rw [h1], by rw [h1]⟩, ⟨by rw [h2], by rw [h2]⟩⟩

/-- The headers of every response produced by `do_GET` end with the
block appended by `end_headers` (the security/CORS headers followed by
the cache-control headers for the final `self.path`). -/
theorem do_GET_headers_shape (gz : Bytes → Bytes) (fs : FileSystem) (p ae : String) :
    ∃ pre, (do_GET gz fs p ae).response.headers
        = pre ++ (securityHeaders ++ cacheHeaders (effectivePath fs p)) := by
  cases hread : fs.read (resolvedFile fs p) with
  | ok c =>
    by_cases hc : compressionApplies fs p ae c
    · rw [do_GET_ok_compressed gz fs p ae c hread hc]
      exact ⟨_, rfl⟩
    · rw [do_GET_ok_plain gz fs p ae c hread hc]
      exact ⟨_, rfl⟩
  | notFound =>
    rw [do_GET_notFound gz fs p ae hread]
    exact ⟨[], rfl⟩
  | ioError e =>
    rw [do_GET_ioError gz fs p ae e hread]
    exact ⟨[], rfl⟩

/-- C9: every response the handler emits — 200, 404 and 500 alike —
carries all seven fixed security/CORS headers, because `send_error`
also goes through the overridden `end_headers`. -/
theorem C9_security_headers_always (gz : Bytes → Bytes) (fs : FileSystem) (p ae : String) :
    ("X-Content-Type-Options", "nosniff") ∈ (do_GET gz fs p ae).response.headers ∧
    ("X-Frame-Options", "DENY") ∈ (do_GET gz fs p ae).response.headers ∧
    ("X-XSS-Protection", "1; mode=block") ∈ (do_GET gz fs p ae).response.headers ∧
    ("Referrer-Policy", "strict-origin-when-cross-origin") ∈ (do_GET gz fs p ae).response.headers ∧
    ("Access-Control-Allow-Origin", "*") ∈ (do_GET gz fs p ae).response.headers ∧
    ("Access-Control-Allow-Methods", "GET, POST, OPTIONS") ∈ (do_GET gz fs p ae).response.headers ∧
    ("Access-Control-Allow-Headers", "Content-Type") ∈ (do_GET gz fs p ae).response.headers := by
  obtain ⟨pre, hpre⟩ := do_GET_headers_shape gz fs p ae
  rw [hpre]
  refine ⟨?_, ?_, ?_, ?_, ?_, ?_, ?_⟩ <;>
    exact List.mem_append.mpr (Or.inr (List.mem_append.mpr (Or.inl (by decide))))

/-- C2: for a request answered with status 200, the response carries
`Content-Encoding: gzip` and a gzip-compressed body exactly when the
client accepts gzip, the content type is compressible and the raw body
exceeds 1024 bytes; otherwise the `Content-Encoding` header is absent
and the body is the raw file content. -/
theorem C2_content_encoding_iff (gz : Bytes → Bytes) (fs : FileSystem) (p ae : String)
    (c : Bytes) (hread : fs.read (resolvedFile fs p) = ReadResult.ok c) :
    (do_GET gz fs p ae).response.status = 200 ∧
    ((do_GET gz fs p ae).response.headers.lookup "Content-Encoding"
        = if compressionApplies fs p ae c then some "gzip" else none) ∧
    ((do_GET gz fs p ae).response.body
        = if compressionApplies fs p ae c then gz c else c) := by
  by_cases hc : compressionApplies fs p ae c
  · rw [do_GET_ok_compressed gz fs p ae c hread hc, if_pos hc, if_pos hc]
    exact ⟨rfl, rfl, rfl⟩
  · rw [do_GET_ok_plain gz fs p ae c hread hc, if_neg hc, if_neg hc]
    exact ⟨rfl, cacheHeaders_no_contentEncoding (effectivePath fs p), rfl⟩

/-- 1025 bytes: just above the compression threshold. -/
def bigBytes : Bytes := List.replicate 1025 97

/-- A filesystem holding a large compressible page. -/
def bigFS : FileSystem :=
  FileSystem.ofList [("/index.html", idxBytes), ("/big.html", bigBytes)]

/-- Witness for C2 at a concrete compressible request. -/
theorem C2_witness :
    (do_GET id bigFS "/big.html" "gzip").response.status = 200 ∧
    ((do_GET id bigFS "/big.html" "gzip").response.headers.lookup "Content-Encoding"
        = if compressionApplies bigFS "/big.html" "gzip" bigBytes then some "gzip" else none) ∧
    ((do_GET id bigFS "/big.html" "gzip").response.body
        = if compressionApplies bigFS "/big.html" "gzip" bigBytes then id bigBytes else bigBytes) :=
  C2_content_encoding_iff id bigFS "/big.html" "gzip" bigBytes (by decide)

/-- C3: a request whose (rewritten) path has no backing file and does
not start with `/privacy` is answered from the fallback document: the
path is rewritten once to `/index.html`, the status is 200, and the
body is the index content (gzip-compressed exactly when the
compression rule applies, in which case the header says so). -/
theorem C3_spa_fallback (gz : Bytes → Bytes) (fs : FileSystem) (p ae : String) (idx : Bytes)
    (hmiss : fs.pathExists (translate_path (rewritePath p)) = false)
    (hexcl : startsWithStr (rewritePath p) "/privacy" = false)
    (hidx : fs.read (translate_path "/index.html") = ReadResult.ok idx) :
    (do_GET gz fs p ae).response.status = 200 ∧
    effectivePath fs p = "/index.html" ∧
    (if compressionApplies fs p ae idx then
      (do_GET gz fs p ae).response.body = gz idx ∧
      (do_GET gz fs p ae).response.headers.lookup "Content-Encoding" = some "gzip"
    else
      (do_GET gz fs p ae).response.body = idx ∧
      (do_GET gz fs p ae).response.headers.lookup "Content-Encoding" = none) := by
  have heff : effectivePath fs p = "/index.html" := by
    simp only [effectivePath]
    rw [if_pos ⟨hmiss, hexcl⟩]
  have hread : fs.read (resolvedFile fs p) = ReadResult.ok idx := by
    simp only [resolvedFile, heff]
    exact hidx
  refine ⟨?_, heff, ?_⟩
  · by_cases hc : compressionApplies fs p ae idx
    · rw [do_GET_ok_compressed gz fs p ae idx hread hc]
    · rw [do_GET_ok_plain gz fs p ae idx hread hc]
  · by_cases hc : compressionApplies fs p ae idx
    · rw [if_pos hc, do_GET_ok_compressed gz fs p ae idx hread hc]
      exact ⟨rfl, rfl⟩
    · rw [if_neg hc, do_GET_ok_plain gz fs p ae idx hread hc]
      exact ⟨rfl, cacheHeaders_no_contentEncoding (effectivePath fs p)⟩

/-- Witness for C3 at a concrete unknown route. -/
theorem C3_witness :
    (do_GET id demoFS "/unknown/route" "").response.status = 200 ∧
    effectivePath demoFS "/unknown/route" = "/index.html" ∧
    (if compressionApplies demoFS "/unknown/route" "" idxBytes then
      (do_GET id demoFS "/unknown/route" "").response.body = id idxBytes ∧
      (do_GET id demoFS "/unknown/route" "").response.headers.lookup "Content-Encoding" = some "gzip"
    else
      (do_GET id demoFS "/unknown/route" "").response.body = idxBytes ∧
      (do_GET id demoFS "/unknown/route" "").response.headers.lookup "Content-Encoding" = none) :=
  C3_spa_fallback id demoFS "/unknown/route" "" idxBytes (by decide) (by decide) (by decide)

/-- C4: a request whose path starts with the excluded prefix
`/privacy` and has no backing file is answered 404, and the SPA
fallback is never applied (the handler's path is not rewritten). -/
theorem C4_privacy_404 (gz : Bytes → Bytes) (fs : FileSystem) (p ae : String)
    (hexcl : startsWithStr p "/privacy" = true)
    (hread : fs.read (translate_path p) = ReadResult.notFound) :
    (do_GET gz fs p ae).response.status = 404 ∧ effectivePath fs p = p := by
  have hrw : rewritePath p = p := by
    unfold rewritePath
    split
    · rename_i h
      exact h.symm
    · split
      · rename_i h
        rcases h with h | h <;> (subst h; exact absurd hexcl (by decide))
      · rfl
  have hneg : ¬ (fs.pathExists (translate_path p) = false ∧
      startsWithStr p "/privacy" = false) := by
    intro hcon
    rw [hexcl] at hcon
    exact absurd hcon.2 (by decide)
  have heff : effectivePath fs p = p := by
    simp only [effectivePath, hrw]
    rw [if_neg hneg]
  have hread2 : fs.read (resolvedFile fs p) = ReadResult.notFound := by
    simp only [resolvedFile, heff]
    exact hread
  rw [do_GET_notFound gz fs p ae hread2]
  exact ⟨rfl, heff⟩

/-- Witness for C4 at a concrete missing privacy page. -/
theorem C4_witness :
    (do_GET id demoFS "/privacy.html" "").response.status = 404 ∧
    effectivePath demoFS "/privacy.html" = "/privacy.html" :=
  C4_privacy_404 id demoFS "/privacy.html" "" (by decide) (by decide)

/-- A filesystem exhibiting the check/read race behind C5's
counterexample: `/gone.html` exists at resolution time but has
vanished (raising `FileNotFoundError`) by the time it is opened. -/
def raceFS : FileSystem where
  pathExists p := decide (p = "/gone.html")
  read _ := ReadResult.notFound

/-- C5 counterexample: the claim says a read failure on a target that
existed at resolution time — including the file being removed between
the existence check and the read — yields status 500.  In the code
that removal raises `FileNotFoundError`, which the first `except`
clause turns into a 404, not a 500. -/
theorem C5_counterexample :
    raceFS.pathExists (translate_path "/gone.html") = true ∧
    raceFS.read (translate_path "/gone.html") = ReadResult.notFound ∧
    (do_GET id raceFS "/gone.html" "").response.status = 404 := by
  decide

/-- C5 amended: a read failure other than `FileNotFoundError`
(permissions, I/O error) yields status 500 with the fixed generic
body — independent of the underlying error, so nothing internal leaks
to the client — while the path and the error are printed to the
server-side log; a `FileNotFoundError` at read time instead yields
404. -/
theorem C5_ioError_500_generic (gz : Bytes → Bytes) (fs : FileSystem) (p ae e : String)
    (hread : fs.read (resolvedFile fs p) = ReadResult.ioError e) :
    (do_GET gz fs p ae).response.status = 500 ∧
    (do_GET gz fs p ae).response.body = body500 ∧
    (do_GET gz fs p ae).log = ["Error serving " ++ effectivePath fs p ++ ": " ++ e] := by
  rw [do_GET_ioError gz fs p ae e hread]
  exact ⟨rfl, rfl, rfl⟩

/-- A filesystem where `/secret.html` exists but reading it raises a
permission error. -/
def brokenFS : FileSystem where
  pathExists p := decide (p = "/secret.html")
  read p :=
    if p = "/secret.html" then ReadResult.ioError "Permission denied"
    else ReadResult.notFound

/-- Witness for the amended C5 at a concrete unreadable file. -/
theorem C5_witness :
    (do_GET id brokenFS "/secret.html" "").response.status = 500 ∧
    (do_GET id brokenFS "/secret.html" "").response.body = body500 ∧
    (do_GET id brokenFS "/secret.html" "").log
        = ["Error serving " ++ effectivePath brokenFS "/secret.html" ++ ": " ++ "Permission denied"] :=
  C5_ioError_500_generic id brokenFS "/secret.html" "" "Permission denied" (by decide)

/-- C6: whenever the response carries `Content-Encoding: gzip`, the
body is exactly the compressor applied to the file bytes read from
disk, so any decompressor that inverts the compressor recovers those
bytes (round-trip law). -/
theorem C6_gzip_roundtrip (gz gunz : Bytes → Bytes) (fs : FileSystem) (p ae : String)
    (c : Bytes) (hrt : ∀ b, gunz (gz b) = b)
    (hread : fs.read (resolvedFile fs p) = ReadResult.ok c)
    (hce : (do_GET gz fs p ae).response.headers.lookup "Content-Encoding" = some "gzip") :
    gunz ((do_GET gz fs p ae).response.body) = c := by
  by_cases hc : compressionApplies fs p ae c
  · rw [do_GET_ok_compressed gz fs p ae c hread hc]
    exact hrt c
  · have hnone : (do_GET gz fs p ae).response.headers.lookup "Content-Encoding" = none := by
      rw [do_GET_ok_plain gz fs p ae c hread hc]
      exact cacheHeaders_no_contentEncoding (effectivePath fs p)
    rw [hnone] at hce
    exact Option.noConfusion hce

/-- Witness for C6 with the identity codec at a concrete compressed
response. -/
theorem C6_witness :
    id ((do_GET id bigFS "/big.html" "gzip").response.body) = bigBytes :=
  C6_gzip_roundtrip id id bigFS "/big.html" "gzip" bigBytes (fun _ => rfl)
    (by decide) (by decide)

/-- C7: in every 200 response the `Content-Length` header is the
decimal length of the transmitted body — the compressed length when
gzip was applied, the raw file length otherwise. -/
theorem C7_content_length (gz : Bytes → Bytes) (fs : FileSystem) (p ae : String)
    (h : (do_GET gz fs p ae).response.status = 200) :
    (do_GET gz fs p ae).response.headers.lookup "Content-Length"
      = some (toString (do_GET gz fs p ae).response.body.length) := by
  cases hread : fs.read (resolvedFile fs p) with
  | ok c =>
    by_cases hc : compressionApplies fs p ae c
    · rw [do_GET_ok_compressed gz fs p ae c hread hc]
      rfl
    · rw [do_GET_ok_plain gz fs p ae c hread hc]
      rfl
  | notFound =>
    rw [do_GET_notFound gz fs p ae hread] at h
    have h2 : (404 : Nat) = 200 := h
    exact absurd h2 (by decide)
  | ioError e =>
    rw [do_GET_ioError gz fs p ae e hread] at h
    have h2 : (500 : Nat) = 200 := h
    exact absurd h2 (by decide)

/-- Witness for C7 at a concrete uncompressed 200 response. -/
theorem C7_witness :
    (do_GET id demoFS "/app.js" "").response.headers.lookup "Content-Length"
      = some (toString (do_GET id demoFS "/app.js" "").response.body.length) :=
  C7_content_length id demoFS "/app.js" "" (by decide)
